import Mathlib

/-!
Verification of the Input Event Bridge Contract declared in
`SwiftAppWindow/Sources/SwiftAppWindowC/include/Rust.h`.

The header is pure interface: six `extern` C function declarations.  We embed
it as data (names, parameter lists, parameter types, return types), transcribed
verbatim from the header, and settle the specification's claims about that
interface.  Behavioral claims about delivery (which is implemented outside the
provided header, on the consuming side of the ABI) are settled against small
models written from the specification's own words; those definitions say so in
their doc comments.
-/

/-- The C types that occur in the header.  `constVoidPtr` is `const void *`,
`voidPtr` is `void *`; the distinction between the two pointer types matters
for the claims about write access through the context pointer. -/
inductive CType where
  | void
  | constVoidPtr
  | voidPtr
  | uint16
  | uint8
  | boolean
  | double
deriving DecidableEq, Repr

/-- A formal parameter of a C function declaration: its name and type. -/
structure CParam where
  name : String
  type : CType
deriving DecidableEq, Repr

/-- A C function declaration: name, return type and parameter list, in
declaration order. -/
structure CFunDecl where
  name : String
  ret : CType
  params : List CParam
deriving DecidableEq, Repr

/-- `extern void raw_input_finish_key_event_context(const void* context);` -/
def raw_input_finish_key_event_context : CFunDecl :=
  { name := "raw_input_finish_key_event_context"
    ret := CType.void
    params := [⟨"context", CType.constVoidPtr⟩] }

/-- `extern void raw_input_finish_mouse_event_context(const void* context);` -/
def raw_input_finish_mouse_event_context : CFunDecl :=
  { name := "raw_input_finish_mouse_event_context"
    ret := CType.void
    params := [⟨"context", CType.constVoidPtr⟩] }

/-- `extern void raw_input_key_notify_func(const void *context, void *window,
uint16_t keyCode, bool pressed);` -/
def raw_input_key_notify_func : CFunDecl :=
  { name := "raw_input_key_notify_func"
    ret := CType.void
    params := [⟨"context", CType.constVoidPtr⟩, ⟨"window", CType.voidPtr⟩,
               ⟨"keyCode", CType.uint16⟩, ⟨"pressed", CType.boolean⟩] }

/-- `extern void raw_input_mouse_move(const void *context, void *window,
double windowPosX, double windowPosY, double windowWidth, double windowHeight);` -/
def raw_input_mouse_move : CFunDecl :=
  { name := "raw_input_mouse_move"
    ret := CType.void
    params := [⟨"context", CType.constVoidPtr⟩, ⟨"window", CType.voidPtr⟩,
               ⟨"windowPosX", CType.double⟩, ⟨"windowPosY", CType.double⟩,
               ⟨"windowWidth", CType.double⟩, ⟨"windowHeight", CType.double⟩] }

/-- `extern void raw_input_mouse_button(const void *context, void *window,
uint8_t button, bool down);` -/
def raw_input_mouse_button : CFunDecl :=
  { name := "raw_input_mouse_button"
    ret := CType.void
    params := [⟨"context", CType.constVoidPtr⟩, ⟨"window", CType.voidPtr⟩,
               ⟨"button", CType.uint8⟩, ⟨"down", CType.boolean⟩] }

/-- `extern void raw_input_mouse_scroll(const void *context, void *window,
double deltaX, double deltaY);` -/
def raw_input_mouse_scroll : CFunDecl :=
  { name := "raw_input_mouse_scroll"
    ret := CType.void
    params := [⟨"context", CType.constVoidPtr⟩, ⟨"window", CType.voidPtr⟩,
               ⟨"deltaX", CType.double⟩, ⟨"deltaY", CType.double⟩] }

/-- The complete list of function declarations of `Rust.h`, in source order.
The header contains nothing else (besides the two standard includes). -/
def rustHeaderDecls : List CFunDecl :=
  [raw_input_finish_key_event_context,
   raw_input_finish_mouse_event_context,
   raw_input_key_notify_func,
   raw_input_mouse_move,
   raw_input_mouse_button,
   raw_input_mouse_scroll]

/-- A declaration is a context-release ("finish") operation when its name is
one of the two finish functions of the header. -/
def isFinishDecl (d : CFunDecl) : Bool :=
  d.name == "raw_input_finish_key_event_context" ||
  d.name == "raw_input_finish_mouse_event_context"

/-- A declaration is an event-notify operation when its name is one of the
four notify functions of the header. -/
def isNotifyDecl (d : CFunDecl) : Bool :=
  d.name == "raw_input_key_notify_func" ||
  d.name == "raw_input_mouse_move" ||
  d.name == "raw_input_mouse_button" ||
  d.name == "raw_input_mouse_scroll"

/-- Type shapes at the width level: both `const void *` and `void *` are
pointers of the same width, so they share one shape.  Used to compare the
header against the spec's abstract signature list, which writes both pointer
parameters as "opaque pointer". -/
inductive CShape where
  | void
  | pointer
  | uint16
  | uint8
  | boolean
  | double
deriving DecidableEq, Repr

/-- The width-level shape of a C type. -/
def CType.shape : CType → CShape
  | CType.void => CShape.void
  | CType.constVoidPtr => CShape.pointer
  | CType.voidPtr => CShape.pointer
  | CType.uint16 => CShape.uint16
  | CType.uint8 => CShape.uint8
  | CType.boolean => CShape.boolean
  | CType.double => CShape.double

/-- An abstract signature as the spec writes it: a name, a return shape and a
list of parameter shapes. -/
structure SpecSig where
  name : String
  ret : CShape
  params : List CShape
deriving DecidableEq, Repr

/-- The spec's signature list, transcribed from its section 6 ("Function
signatures (types expressed abstractly)"), in the order given there. -/
def specSignatureList : List SpecSig :=
  [⟨"finish_key_event_context", CShape.void, [CShape.pointer]⟩,
   ⟨"finish_mouse_event_context", CShape.void, [CShape.pointer]⟩,
   ⟨"key_notify", CShape.void,
     [CShape.pointer, CShape.pointer, CShape.uint16, CShape.boolean]⟩,
   ⟨"mouse_move", CShape.void,
     [CShape.pointer, CShape.pointer, CShape.double, CShape.double,
      CShape.double, CShape.double]⟩,
   ⟨"mouse_button", CShape.void,
     [CShape.pointer, CShape.pointer, CShape.uint8, CShape.boolean]⟩,
   ⟨"mouse_scroll", CShape.void,
     [CShape.pointer, CShape.pointer, CShape.double, CShape.double]⟩]

/-- The actual naming rule of the header relative to the spec's abstract
names: every declared name is the spec name prefixed with `raw_input_`, and
the key-notify declaration additionally carries a `_func` suffix. -/
def headerNameOfSpecName (n : String) : String :=
  if n == "key_notify" then "raw_input_" ++ n ++ "_func"
  else "raw_input_" ++ n

/-- Modelled from the spec: consumer-side delivery of one mouse-scroll
notification.  Only the declaration of `raw_input_mouse_scroll` is in the
provided sources; the spec says the call "Delivers one MouseScrollEvent" with
"no accumulation, smoothing, or inertia ... at this boundary" and that zero
deltas "are not filtered at this layer".  So a call appends the event to the
consumer's trace unconditionally, for every pair of deltas.  The
double-precision deltas are modelled as rationals (the values the doubles
denote); the delivery logic does not depend on rounding. -/
def deliverMouseScroll (trace : List (Rat × Rat)) (deltaX deltaY : Rat) :
    List (Rat × Rat) :=
  trace ++ [(deltaX, deltaY)]

/-- Payload of one raw input event, one constructor per notify operation of
the header, with the payload fields of the corresponding declaration
(integer widths are enforced where the claims need them; here the payloads
only flow through delivery unchanged, so numbers suffice). -/
inductive EventPayload where
  | key (keyCode : Nat) (pressed : Bool)
  | mouseMove (windowPosX windowPosY windowWidth windowHeight : Rat)
  | mouseButton (button : Nat) (down : Bool)
  | mouseScroll (deltaX deltaY : Rat)
deriving DecidableEq, Repr

/-- A native input event as the producer observes it: the opaque context and
window handles (modelled as numbers, used only as identity keys, as the spec
requires) plus the event payload. -/
structure InputEvent where
  ctx : Nat
  win : Nat
  payload : EventPayload
deriving DecidableEq, Repr

/-- Modelled from the spec: one synchronous notify call.  The boundary is "a
synchronous, direct-call boundary"; a call runs to completion and hands the
consumer exactly this event, so it appends the event to the consumer-side
trace. -/
def notifyCall (trace : List InputEvent) (e : InputEvent) : List InputEvent :=
  trace ++ [e]

/-- Modelled from the spec: the producer "observes native input events and,
for each one, invokes one of the notify functions", synchronously and in
observation order; the consumer trace is the fold of the notify calls over
the observed sequence. -/
def produceAll (observed : List InputEvent) : List InputEvent :=
  observed.foldl notifyCall []

lemma foldl_notifyCall_eq (l acc : List InputEvent) :
    l.foldl notifyCall acc = acc ++ l := by
  induction l generalizing acc with
  | nil => simp
  | cons x xs ih => simp [List.foldl_cons, notifyCall, ih]

lemma produceAll_eq (observed : List InputEvent) : produceAll observed = observed := by
  simpa [produceAll] using foldl_notifyCall_eq observed []

/-- C1: The boundary consists of exactly six operations: two context-release
("finish") functions and four event-notify functions (key, mouse move, mouse
button, mouse scroll); the header declares no other functions. -/
theorem C1_boundary_is_six_operations :
    rustHeaderDecls.length = 6 ∧
    (rustHeaderDecls.filter isFinishDecl).length = 2 ∧
    (rustHeaderDecls.filter isNotifyDecl).length = 4 ∧
    ∀ d ∈ rustHeaderDecls, isFinishDecl d = true ∨ isNotifyDecl d = true := by
  decide

theorem C1_boundary_is_six_operations_witness :
    isFinishDecl raw_input_finish_key_event_context = true ∨
    isNotifyDecl raw_input_finish_key_event_context = true :=
  C1_boundary_is_six_operations.2.2.2 raw_input_finish_key_event_context (by decide)

/-- C2 counterexample: the first boundary function is declared, but its
declared name is `raw_input_finish_key_event_context`, not the spec's
`finish_key_event_context`; the claim that every declared name is exactly the
name of the spec's signature list is therefore false on the code. -/
theorem C2_counterexample :
    raw_input_finish_key_event_context ∈ rustHeaderDecls ∧
    raw_input_finish_key_event_context.name ≠ "finish_key_event_context" := by
  decide

/-- C2 (amended): every declared name is the spec-list name prefixed with
`raw_input_` (and, for `key_notify` only, additionally suffixed with `_func`),
and the declarations preserve the spec list's argument order, argument count,
primitive widths and void return types, declaration by declaration. -/
theorem C2_names_are_prefixed_spec_names :
    rustHeaderDecls.length = specSignatureList.length ∧
    rustHeaderDecls.map CFunDecl.name =
      specSignatureList.map (fun s => headerNameOfSpecName s.name) ∧
    rustHeaderDecls.map (fun d => d.params.map (fun p => p.type.shape)) =
      specSignatureList.map SpecSig.params ∧
    rustHeaderDecls.map (fun d => d.ret.shape) =
      specSignatureList.map SpecSig.ret := by
  decide

/-- C3: every operation of the boundary, the four notify functions and the two
finish functions alike, returns no value (`void`), so none of them can report
an error or result code to its caller. -/
theorem C3_all_operations_return_void :
    ∀ d ∈ rustHeaderDecls, d.ret = CType.void := by
  decide

theorem C3_all_operations_return_void_witness :
    raw_input_mouse_scroll.ret = CType.void :=
  C3_all_operations_return_void raw_input_mouse_scroll (by decide)

/-- C4: the key notify operation carries its payload as a 16-bit unsigned
`keyCode` and a boolean `pressed` flag, in that order, after the context and
window arguments. -/
theorem C4_key_notify_payload_order :
    raw_input_key_notify_func ∈ rustHeaderDecls ∧
    raw_input_key_notify_func.params.map CParam.name =
      ["context", "window", "keyCode", "pressed"] ∧
    raw_input_key_notify_func.params.map CParam.type =
      [CType.constVoidPtr, CType.voidPtr, CType.uint16, CType.boolean] := by
  decide

/-- C5: every mouse move notification carries the window's current width and
height as double-precision parameters in the same call (the same parameter
list) as the double-precision window-local cursor position. -/
theorem C5_mouse_move_carries_dimensions :
    raw_input_mouse_move ∈ rustHeaderDecls ∧
    raw_input_mouse_move.params.map CParam.name =
      ["context", "window", "windowPosX", "windowPosY",
       "windowWidth", "windowHeight"] ∧
    raw_input_mouse_move.params.map CParam.type =
      [CType.constVoidPtr, CType.voidPtr, CType.double, CType.double,
       CType.double, CType.double] := by
  decide

/-- C6: the mouse button operation carries its payload as an 8-bit unsigned
`button` identifier and a boolean `down` flag, after the context and window
arguments. -/
theorem C6_mouse_button_payload_order :
    raw_input_mouse_button ∈ rustHeaderDecls ∧
    raw_input_mouse_button.params.map CParam.name =
      ["context", "window", "button", "down"] ∧
    raw_input_mouse_button.params.map CParam.type =
      [CType.constVoidPtr, CType.voidPtr, CType.uint8, CType.boolean] := by
  decide

/-- C7: the mouse scroll operation takes two double-precision deltas with no
restriction of their domain, and delivery (modelled from the spec, since only
the declaration is in the sources) accepts the zero-delta pair like any other:
a `(0, 0)` call appends exactly one event, the zero-delta event itself, to the
trace, exactly as a call with any other deltas does; nothing is filtered. -/
theorem C7_zero_scroll_is_delivered :
    (raw_input_mouse_scroll.params.map CParam.type =
      [CType.constVoidPtr, CType.voidPtr, CType.double, CType.double]) ∧
    ∀ (trace : List (Rat × Rat)) (dx dy : Rat),
      deliverMouseScroll trace 0 0 = trace ++ [(0, 0)] ∧
      (deliverMouseScroll trace 0 0).length =
        (deliverMouseScroll trace dx dy).length := by
  refine ⟨by decide, ?_⟩
  intro trace dx dy
  simp [deliverMouseScroll]

/-- C8: for every one of the four notify operations, the first parameter is
the opaque context pointer and the second is the opaque window handle, and
the event-specific payload arguments come only after those two. -/
theorem C8_notify_context_then_window :
    ∀ d ∈ rustHeaderDecls, isNotifyDecl d = true →
      2 ≤ d.params.length ∧
      (d.params.map CParam.name).take 2 = ["context", "window"] ∧
      (d.params.map CParam.type).take 2 = [CType.constVoidPtr, CType.voidPtr] := by
  decide

theorem C8_notify_context_then_window_witness :
    2 ≤ raw_input_mouse_move.params.length ∧
    (raw_input_mouse_move.params.map CParam.name).take 2 = ["context", "window"] ∧
    (raw_input_mouse_move.params.map CParam.type).take 2 =
      [CType.constVoidPtr, CType.voidPtr] :=
  C8_notify_context_then_window raw_input_mouse_move (by decide) (by decide)

/-- C9: in the synchronous direct-call delivery modelled from the spec, for
every context/window pair the consumer receives exactly the notify calls the
producer observed for that pair, in the same order (FIFO per source), with no
reordering across event kinds: the delivered trace restricted to any pair
equals the observed sequence restricted to that pair. -/
theorem C9_fifo_per_context_window_pair :
    ∀ (observed : List InputEvent) (c w : Nat),
      (produceAll observed).filter (fun e => e.ctx == c && e.win == w) =
        observed.filter (fun e => e.ctx == c && e.win == w) := by
  intro observed c w
  rw [produceAll_eq]

/-- C10: in all six declared operations, every `context` parameter has type
`const void *` while every `window` parameter, where present, is a non-const
`void *`: the signatures grant the callee no write access through the context
pointer. -/
theorem C10_context_is_const_pointer :
    ∀ d ∈ rustHeaderDecls,
      (∀ p ∈ d.params, p.name = "context" → p.type = CType.constVoidPtr) ∧
      (∀ p ∈ d.params, p.name = "window" → p.type = CType.voidPtr) := by
  decide

theorem C10_context_is_const_pointer_witness :
    (⟨"context", CType.constVoidPtr⟩ : CParam).type = CType.constVoidPtr :=
  (C10_context_is_const_pointer raw_input_key_notify_func (by decide)).1
    ⟨"context", CType.constVoidPtr⟩ (by decide) (by decide)
